import Mathlib

/-!
Verification of the VScanner vulnerability-scanner core (Python) against its
natural-language specification, via a shallow embedding in Lean 4.

Embedding conventions:
 - Python strings are Lean `String`s; all string algorithms are re-implemented
   structurally over `List Char` (`String.data`) so every definition evaluates
   inside the kernel.
 - The `requests` HTTP collaborator is modelled as an oracle
   `Http : Request → Option Response`; `none` models a raised
   `requests.exceptions.RequestException` (transport failure).
 - A Python dict of URL parameters is an association list with distinct keys,
   in insertion order; dict assignment to an existing key keeps its position.
 - Each scanner's `scan` method is embedded as a function that also returns the
   list of HTTP requests it issued (in order), so "no request is issued" and
   redirect-policy properties are statable.
-/

namespace VScanner

/-! ## Generic string machinery (structural, kernel-evaluable) -/

/-- Split a character list at every occurrence of the character `c0`
(Python `str.split` with a one-character separator). -/
def splitChar (c0 : Char) : List Char → List (List Char)
  | [] => [[]]
  | c :: rest =>
    match splitChar c0 rest with
    | [] => [[]]
    | cur :: parts => if c = c0 then [] :: cur :: parts else (c :: cur) :: parts

/-- Split a character list at every occurrence of the two-character separator
`a b` (Python `str.split` with a two-character separator such as a comma
followed by a space). -/
def splitStr2 (a b : Char) : List Char → List (List Char)
  | [] => [[]]
  | [c] => [[c]]
  | c :: d :: rest =>
    if c = a ∧ d = b then
      [] :: splitStr2 a b rest
    else
      match splitStr2 a b (d :: rest) with
      | [] => [[c]]
      | cur :: parts => (c :: cur) :: parts

/-- Break a character list at the first occurrence of `c0`: returns the part
before and the part after it, or `none` when `c0` does not occur
(Python `str.split(c0, 1)` / `str.partition`). -/
def breakAt (c0 : Char) : List Char → Option (List Char × List Char)
  | [] => none
  | c :: rest =>
    if c = c0 then some ([], rest)
    else (breakAt c0 rest).map (fun p => (c :: p.1, p.2))

/-- Substring test: `containsSub needle hay` is true iff `needle` occurs
contiguously in `hay` (Python `needle in hay`). -/
def containsSub (needle : List Char) : List Char → Bool
  | [] => needle.isEmpty
  | c :: rest => needle.isPrefixOf (c :: rest) || containsSub needle rest

/-- ASCII lower-casing of one character (models Python `str.lower` on the
ASCII header and scheme names used by the program). -/
def lowerChar (c : Char) : Char :=
  if 'A' ≤ c ∧ c ≤ 'Z' then Char.ofNat (c.toNat + 32) else c

/-- ASCII lower-casing of a string. -/
def lowerStr (s : String) : String := ⟨s.data.map lowerChar⟩

/-- Numeric value of a hexadecimal digit, if any. -/
def hexVal (c : Char) : Option Nat :=
  if '0' ≤ c ∧ c ≤ '9' then some (c.toNat - 48)
  else if 'A' ≤ c ∧ c ≤ 'F' then some (c.toNat - 55)
  else if 'a' ≤ c ∧ c ≤ 'f' then some (c.toNat - 87)
  else none

/-- Upper-case hexadecimal digit of a value below 16. -/
def hexDigit (n : Nat) : Char :=
  if n < 10 then Char.ofNat (48 + n) else Char.ofNat (55 + n)

/-! ## urllib.parse fragments used by the scanners -/

/-- Percent-decoding (Python `urllib.parse.unquote` restricted to the
single-byte escape sequences the program's inputs contain): a valid escape
sequence percent-x-y becomes the character with that code, an invalid escape
is kept verbatim. -/
def pctDecode : List Char → List Char
  | [] => []
  | '%' :: a :: b :: rest =>
    match hexVal a, hexVal b with
    | some x, some y => Char.ofNat (16 * x + y) :: pctDecode rest
    | _, _ => '%' :: pctDecode (a :: b :: rest)
  | ['%', a] => ['%', a]
  | ['%'] => ['%']
  | c :: rest => c :: pctDecode rest

/-- Python `urllib.parse.unquote_plus`: plus signs become spaces, then
percent-escapes are decoded. -/
def unquotePlus (s : List Char) : String :=
  ⟨pctDecode (s.map (fun c => if c = '+' then ' ' else c))⟩

/-- Percent-encoding of one character as in Python `urllib.parse.quote_plus`
(ASCII alphanumerics and underscore, dot, dash, tilde kept; space becomes a
plus; everything else becomes an upper-case percent escape of its byte).
Models the ASCII inputs the program encodes. -/
def quotePlusChar (c : Char) : List Char :=
  if c.isAlphanum ∨ c = '_' ∨ c = '.' ∨ c = '-' ∨ c = '~' then [c]
  else if c = ' ' then ['+']
  else ['%', hexDigit (c.toNat / 16 % 16), hexDigit (c.toNat % 16)]

/-- Python `urllib.parse.quote_plus` on a string. -/
def quotePlus (s : String) : String := ⟨s.data.flatMap quotePlusChar⟩

/-- Python `urllib.parse.urlencode` on an association list of parameters. -/
def urlencode : List (String × String) → String
  | [] => ""
  | [(k, v)] => quotePlus k ++ "=" ++ quotePlus v
  | (k, v) :: rest => quotePlus k ++ "=" ++ quotePlus v ++ "&" ++ urlencode rest

/-- Result of Python `urllib.parse.urlsplit`. -/
structure UrlSplit where
  scheme : String
  netloc : String
  path : String
  query : String
  fragment : String
deriving DecidableEq

/-- Character may appear in a URL scheme (urllib's `scheme_chars`). -/
def isSchemeChar (c : Char) : Bool :=
  c.isAlphanum || c = '+' || c = '-' || c = '.'

/-- Take characters until one of `stops` is hit; returns the prefix and the
remainder (the stop character included in the remainder). -/
def takeUntilMem (stops : List Char) : List Char → List Char × List Char
  | [] => ([], [])
  | c :: rest =>
    if c ∈ stops then ([], c :: rest)
    else
      let p := takeUntilMem stops rest
      (c :: p.1, p.2)

/-- Python `urllib.parse.urlsplit` (scheme, netloc, path, query, fragment),
restricted to the behavior the program relies on: the scheme is recognised
when a colon follows an initial alphabetic-then-scheme-character run, the
netloc follows a double slash up to the first slash, question mark or hash,
the fragment is everything after the first hash, and the query is everything
after the first question mark of what remains. -/
def urlsplit (url : String) : UrlSplit :=
  let s := url.data
  let schemeRest : List Char × List Char :=
    match breakAt ':' s with
    | some (before, after) =>
      match before with
      | [] => ([], s)
      | c0 :: _ =>
        if c0.isAlpha ∧ before.all isSchemeChar then (before.map lowerChar, after)
        else ([], s)
    | none => ([], s)
  let rest0 := schemeRest.2
  let netlocRest : List Char × List Char :=
    if ['/', '/'].isPrefixOf rest0 then takeUntilMem ['/', '?', '#'] (rest0.drop 2)
    else ([], rest0)
  let rest1 := netlocRest.2
  let restFrag : List Char × List Char :=
    match breakAt '#' rest1 with
    | some (a, b) => (a, b)
    | none => (rest1, [])
  let pathQuery : List Char × List Char :=
    match breakAt '?' restFrag.1 with
    | some (a, b) => (a, b)
    | none => (restFrag.1, [])
  { scheme := ⟨schemeRest.1⟩
    netloc := ⟨netlocRest.1⟩
    path := ⟨pathQuery.1⟩
    query := ⟨pathQuery.2⟩
    fragment := ⟨restFrag.2⟩ }

/-- Query component of a URL, `urlparse(url).query`. -/
def urlQuery (url : String) : String := (urlsplit url).query

/-- Network-location component of a URL, `urlparse(url).netloc`. -/
def urlNetloc (url : String) : String := (urlsplit url).netloc

/-! ## Parameter dictionaries (`urllib.parse.parse_qs` and dict operations) -/

/-- A Python dict of URL parameters: an association list in insertion order. -/
abbrev Params := List (String × String)

/-- Parse one `name=value` field of a query string as
`urllib.parse.parse_qsl` does with `keep_blank_values=False`: an empty field
is dropped, a field without an equals sign is dropped, a field whose value
part (after the first equals sign) is empty is dropped, and otherwise both
sides are plus-and-percent decoded. -/
def parseField (field : List Char) : Option (String × String) :=
  if field = [] then none
  else
    match breakAt '=' field with
    | none => none
    | some (n, v) => if v = [] then none else some (unquotePlus n, unquotePlus v)

/-- Python `urllib.parse.parse_qsl` with default arguments: split the query
string on ampersands and parse each field. -/
def parseQsl (qs : String) : List (String × String) :=
  (splitChar '&' qs.data).filterMap parseField

/-- Collapse repeated keys, keeping the first value and first-occurrence key
order: composing `parse_qs` (which groups values per key in insertion order)
with the scanner's `{k: v[0] for k, v in params.items()}`. -/
def dedupKeys (seen : List String) : List (String × String) → Params
  | [] => []
  | (k, v) :: rest =>
    if k ∈ seen then dedupKeys seen rest
    else (k, v) :: dedupKeys (seen ++ [k]) rest

/-- Python dict lookup `ps[k]` as an option. -/
def dictGet (ps : Params) (k : String) : Option String :=
  (ps.find? (fun kv => kv.1 == k)).map (·.2)

/-- Python dict assignment `ps[k] = v` on a copy: an existing key keeps its
position and gets the new value, a new key is appended. -/
def dictSet (ps : Params) (k v : String) : Params :=
  if ps.any (fun kv => kv.1 == k) then
    ps.map (fun kv => if kv.1 == k then (k, v) else kv)
  else ps ++ [(k, v)]

/-! ## Configuration tables (`core/config.py`) -/

namespace Config

/-- XSS payload list (`Config.XSS_PAYLOADS`). -/
def XSS_PAYLOADS : List String :=
  ["<script>alert(1)</script>",
   "<img src=x onerror=alert(1)>",
   "\x27;alert(1);//",
   "<svg/onload=alert(1)>",
   "javascript:alert(1)"]

/-- SQL injection payload list (`Config.SQLI_PAYLOADS`). -/
def SQLI_PAYLOADS : List String :=
  ["\x27 OR \x271\x27=\x271",
   "\x22 OR \x221\x22=\x221",
   "\x27 UNION SELECT NULL--",
   "1; DROP TABLE users--",
   "\x27 AND 1=2 UNION SELECT NULL--",
   "admin\x27--"]

/-- Common redirect-parameter names (`Config.REDIRECT_PARAMS`). -/
def REDIRECT_PARAMS : List String :=
  ["redirect", "url", "next", "return", "goto", "redir", "continue"]

/-- Fixed malicious redirect target (`Config.MALICIOUS_REDIRECT_TARGET`). -/
def MALICIOUS_REDIRECT_TARGET : String := "https://malicious-example.com"

/-- Required security headers (`Config.REQUIRED_SECURITY_HEADERS`). -/
def REQUIRED_SECURITY_HEADERS : List String :=
  ["X-Frame-Options",
   "X-XSS-Protection",
   "Content-Security-Policy",
   "Strict-Transport-Security",
   "X-Content-Type-Options"]

/-- Forbidden HTTP methods (`Config.FORBIDDEN_HTTP_METHODS`). -/
def FORBIDDEN_HTTP_METHODS : List String := ["TRACE", "TRACK"]

/-- Database error signatures (`Config.SQL_ERROR_PATTERNS`). -/
def SQL_ERROR_PATTERNS : List String :=
  ["MySQL server version for the right syntax",
   "PG::SyntaxError:",
   "ORA-01756:",
   "Unclosed quotation mark after the character string",
   "sqlite3.OperationalError",
   "SQL syntax",
   "mysql_fetch",
   "Warning: pg_"]

/-- Threshold for the boolean-based SQLi length heuristic
(`Config.RESPONSE_LENGTH_THRESHOLD`). -/
def RESPONSE_LENGTH_THRESHOLD : Nat := 50

end Config

/-! ## HTTP collaborator model -/

/-- One HTTP request as issued through the `requests` library: method, the URL
string passed as first argument, the `params` keyword argument
(empty list when the call passes no `params`), and the effective
`allow_redirects` flag (the library default is `true` when the call omits
it). -/
structure Request where
  httpMethod : String
  url : String
  params : Params
  allowRedirects : Bool
deriving DecidableEq

/-- One HTTP response: status code, headers as the items of the response's
header mapping, the final resolved URL `response.url`, and the body text
`response.text`. -/
structure Response where
  status_code : Nat
  headers : List (String × String)
  url : String
  body : String
deriving DecidableEq

/-- The HTTP collaborator as an oracle; `none` models a raised
`requests.exceptions.RequestException`. -/
abbrev Http := Request → Option Response

/-- One vulnerability record as the scanners build them; keys a given scanner
does not put in its dict are `none`. -/
structure Vuln where
  type : String
  url : String
  status_code : Nat
  payload : Option String := none
  parameter : Option String := none
  description : Option String := none
  issue : Option String := none
  details : Option String := none
  redirected_to : Option String := none
deriving DecidableEq

/-! ## Scanner contract helpers (`core/base_scanner.py`) -/

/-- `BaseScanner.extract_params`: parse the URL's query string and keep the
first value of each key. -/
def extractParams (targetUrl : String) : Params :=
  dedupKeys [] (parseQsl (urlQuery targetUrl))

/-- `BaseScanner.get_base_url`: the URL truncated at the first question mark,
Python `target_url.split("?")[0]`. -/
def getBaseUrl (targetUrl : String) : String :=
  match breakAt '?' targetUrl.data with
  | some (before, _) => ⟨before⟩
  | none => targetUrl

/-- Shared prologue of the XSS and SQLi `scan` methods: the explicit `params`
argument is used when it is truthy (non-`None` and non-empty), otherwise
parameters are extracted from the URL. -/
def resolveParams (targetUrl : String) (params? : Option Params) : Params :=
  match params? with
  | none => extractParams targetUrl
  | some ps => if ps.isEmpty then extractParams targetUrl else ps

/-! ## XSS strategy (`scanners/xss_scanner.py`) -/

/-- The probe request one XSS trial issues: GET to the base URL with the
probed parameter overwritten by the payload, redirects disabled. -/
def xssProbeReq (base : String) (params : Params) (payload param : String) : Request :=
  { httpMethod := "GET", url := base, params := dictSet params param payload,
    allowRedirects := false }

/-- One XSS (payload, parameter) trial: findings produced and requests
issued. A transport failure yields no finding; a response whose body contains
the literal payload yields one reflected-XSS finding. -/
def xssTrial (http : Http) (base : String) (params : Params) (payload param : String) :
    List Vuln × List Request :=
  let rq := xssProbeReq base params payload param
  match http rq with
  | none => ([], [rq])
  | some r =>
    if containsSub payload.data r.body.data then
      ([{ type := "XSS (Reflected)", payload := some payload, parameter := some param,
          url := r.url, status_code := r.status_code,
          description := some "Unescaped XSS payload reflected in response" }], [rq])
    else ([], [rq])

/-- `XSSScanner.scan`: `vulns0` is the instance's `self.vulnerabilities`
before the call; the method resets it, resolves parameters, gates on their
presence, and loops payloads (outer) over parameters (inner), appending
findings. Returns the finding list and the request trace. -/
def xssScanMethod (vulns0 : List Vuln) (http : Http) (targetUrl : String)
    (params? : Option Params) : List Vuln × List Request :=
  let _ := vulns0
  let acc : List Vuln := []
  let params := resolveParams targetUrl params?
  if params.isEmpty then (acc, [])
  else
    Config.XSS_PAYLOADS.foldl (fun st payload =>
      params.foldl (fun st kv =>
        let t := xssTrial http (getBaseUrl targetUrl) params payload kv.1
        (st.1 ++ t.1, st.2 ++ t.2)) st) (acc, [])

/-- `XSSScanner.scan` on a fresh instance. -/
def xssScan (http : Http) (targetUrl : String) (params? : Option Params) :
    List Vuln × List Request :=
  xssScanMethod [] http targetUrl params?

/-! ## SQLi strategy (`scanners/sqli_scanner.py`) -/

/-- The probe request one SQLi trial issues: GET to the base URL with the
probed parameter overwritten by the payload, redirects disabled. -/
def sqliProbeReq (base : String) (params : Params) (payload param : String) : Request :=
  { httpMethod := "GET", url := base, params := dictSet params param payload,
    allowRedirects := false }

/-- The baseline request of the boolean-based check: GET to the base URL with
`params={param: params[param]}` — only the probed parameter, at its original
value — and `allow_redirects` left at the library default `true`. At every
call site `param` is a key of `params`, so the `getD` fallback is never
taken. -/
def sqliBaselineReq (base : String) (params : Params) (param : String) : Request :=
  { httpMethod := "GET", url := base,
    params := [(param, (dictGet params param).getD "")],
    allowRedirects := true }

/-- Absolute difference of the two response bodies' lengths,
`abs(len(a) - len(b))`. -/
def lenDiff (a b : String) : Nat :=
  ((a.length : Int) - (b.length : Int)).natAbs

/-- One SQLi (payload, parameter) trial: the probe request, the error-based
pattern check (first matching signature only), then the baseline request and
the boolean-based length check. Returns findings and requests issued. -/
def sqliTrial (http : Http) (base : String) (params : Params) (payload param : String) :
    List Vuln × List Request :=
  let rq := sqliProbeReq base params payload param
  match http rq with
  | none => ([], [rq])
  | some r =>
    let errVulns : List Vuln :=
      match Config.SQL_ERROR_PATTERNS.find? (fun pat => containsSub pat.data r.body.data) with
      | some pat =>
        [{ type := "SQL Injection (Error-Based)", payload := some payload,
           parameter := some param, url := r.url, status_code := r.status_code,
           description := some ("SQL error detected: " ++ pat) }]
      | none => []
    let brq := sqliBaselineReq base params param
    match http brq with
    | none => (errVulns, [rq, brq])
    | some r0 =>
      let d := lenDiff r.body r0.body
      if d > Config.RESPONSE_LENGTH_THRESHOLD then
        (errVulns ++
          [{ type := "SQL Injection (Boolean-Based)", payload := some payload,
             parameter := some param, url := r.url, status_code := r.status_code,
             description := some ("Significant response length change (" ++
               toString d ++ " bytes)") }], [rq, brq])
      else (errVulns, [rq, brq])

/-- `SQLiScanner.scan`: reset, resolve parameters, gate, then loop payloads
over parameters running one trial each. -/
def sqliScanMethod (vulns0 : List Vuln) (http : Http) (targetUrl : String)
    (params? : Option Params) : List Vuln × List Request :=
  let _ := vulns0
  let acc : List Vuln := []
  let params := resolveParams targetUrl params?
  if params.isEmpty then (acc, [])
  else
    Config.SQLI_PAYLOADS.foldl (fun st payload =>
      params.foldl (fun st kv =>
        let t := sqliTrial http (getBaseUrl targetUrl) params payload kv.1
        (st.1 ++ t.1, st.2 ++ t.2)) st) (acc, [])

/-- `SQLiScanner.scan` on a fresh instance. -/
def sqliScan (http : Http) (targetUrl : String) (params? : Option Params) :
    List Vuln × List Request :=
  sqliScanMethod [] http targetUrl params?

/-! ## HTTP-Misconfiguration strategy (`scanners/http_scanner.py`) -/

/-- The initial GET request of the HTTP scanner, redirects followed. -/
def httpGetReq (targetUrl : String) : Request :=
  { httpMethod := "GET", url := targetUrl, params := [], allowRedirects := true }

/-- The OPTIONS request of the HTTP scanner (`requests.options` defaults to
following redirects). -/
def httpOptionsReq (targetUrl : String) : Request :=
  { httpMethod := "OPTIONS", url := targetUrl, params := [], allowRedirects := true }

/-- Membership of a header name in the response's lower-cased header-name
set, `header.lower() in {k.lower() for k, v in headers}`. -/
def hasHeader (headers : List (String × String)) (h : String) : Bool :=
  headers.any (fun kv => lowerStr kv.1 == lowerStr h)

/-- Missing-security-header findings collected from the GET response. -/
def missingHeaderVulns (targetUrl : String) (r : Response) : List Vuln :=
  Config.REQUIRED_SECURITY_HEADERS.filterMap (fun h =>
    if hasHeader r.headers h then none
    else some { type := "HTTP Misconfiguration", issue := some "Missing Security Header",
                details := some ("Header \x27" ++ h ++
                  "\x27 is missing (critical for security hardening)"),
                url := targetUrl, status_code := r.status_code })

/-- Case-insensitive header lookup with default, modelling
`response.headers.get(key, "")` on the `requests` case-insensitive header
mapping. -/
def headerGetD (headers : List (String × String)) (key dflt : String) : String :=
  match headers.find? (fun kv => lowerStr kv.1 == lowerStr key) with
  | some kv => kv.2
  | none => dflt

/-- Insecure-method findings collected from the OPTIONS response: the `Allow`
header is split on comma-space and each forbidden method present in that list
is flagged. -/
def insecureMethodVulns (targetUrl : String) (o : Response) : List Vuln :=
  let allowed := (splitStr2 ',' ' ' (headerGetD o.headers "Allow" "").data).map
    (fun l => (⟨l⟩ : String))
  Config.FORBIDDEN_HTTP_METHODS.filterMap (fun m =>
    if m ∈ allowed then
      some { type := "HTTP Misconfiguration", issue := some "Insecure HTTP Method Enabled",
             details := some ("Method \x27" ++ m ++
               "\x27 is allowed (can be used for cross-site tracing attacks)"),
             url := targetUrl, status_code := o.status_code }
    else none)

/-- `HTTPScanner.scan`: reset; if the GET fails the whole check is abandoned
with no findings; otherwise header findings are collected, and the OPTIONS
check runs in its own try block whose failure is swallowed. -/
def httpScanMethod (vulns0 : List Vuln) (http : Http) (targetUrl : String)
    (params? : Option Params) : List Vuln × List Request :=
  let _ := vulns0
  let _ := params?
  let acc : List Vuln := []
  let rq := httpGetReq targetUrl
  match http rq with
  | none => (acc, [rq])
  | some r =>
    let headerVulns := missingHeaderVulns targetUrl r
    let orq := httpOptionsReq targetUrl
    match http orq with
    | none => (acc ++ headerVulns, [rq, orq])
    | some o => (acc ++ headerVulns ++ insecureMethodVulns targetUrl o, [rq, orq])

/-- `HTTPScanner.scan` on a fresh instance. -/
def httpScan (http : Http) (targetUrl : String) (params? : Option Params) :
    List Vuln × List Request :=
  httpScanMethod [] http targetUrl params?

/-! ## Open-Redirect strategy (`scanners/redirect_scanner.py`) -/

/-- The probe URL for one redirect-parameter trial:
`base?urlencode({param: MALICIOUS_REDIRECT_TARGET})`. -/
def redirectTestUrl (targetUrl param : String) : String :=
  getBaseUrl targetUrl ++ "?" ++ urlencode [(param, Config.MALICIOUS_REDIRECT_TARGET)]

/-- The request one redirect trial issues, redirects followed. -/
def redirectReq (targetUrl param : String) : Request :=
  { httpMethod := "GET", url := redirectTestUrl targetUrl param, params := [],
    allowRedirects := true }

/-- One redirect-parameter trial: a finding is emitted exactly when the
network location of the final response URL equals that of the malicious
target. -/
def redirectTrial (http : Http) (targetUrl param : String) : List Vuln × List Request :=
  let rq := redirectReq targetUrl param
  match http rq with
  | none => ([], [rq])
  | some r =>
    if urlNetloc r.url = urlNetloc Config.MALICIOUS_REDIRECT_TARGET then
      ([{ type := "Open Redirect", parameter := some param, url := rq.url,
          redirected_to := some r.url, status_code := r.status_code,
          description :=
            some "Unvalidated redirect parameter allows navigation to malicious domain" }],
        [rq])
    else ([], [rq])

/-- `RedirectScanner.scan`: reset, then one trial per fixed redirect
parameter name. -/
def redirectScanMethod (vulns0 : List Vuln) (http : Http) (targetUrl : String)
    (params? : Option Params) : List Vuln × List Request :=
  let _ := vulns0
  let _ := params?
  let acc : List Vuln := []
  Config.REDIRECT_PARAMS.foldl (fun st param =>
    let t := redirectTrial http targetUrl param
    (st.1 ++ t.1, st.2 ++ t.2)) (acc, [])

/-- `RedirectScanner.scan` on a fresh instance. -/
def redirectScan (http : Http) (targetUrl : String) (params? : Option Params) :
    List Vuln × List Request :=
  redirectScanMethod [] http targetUrl params?

/-! ## JSON report generation (`core/reporter.py`) -/

/-- JSON values as the report contains them: strings, non-negative integers,
arrays and objects (objects keep insertion order, as Python dicts do). -/
inductive Json where
  | str (s : String)
  | num (n : Nat)
  | arr (xs : List Json)
  | obj (kvs : List (String × Json))

/-- Lower-case hexadecimal digit of a value below 16. -/
def hexDigitLower (n : Nat) : Char :=
  if n < 10 then Char.ofNat (48 + n) else Char.ofNat (87 + n)

/-- JSON escaping of one character as `json.dump` with `ensure_ascii=False`
performs it: quote, backslash and the named control characters get two-character
escapes, other control characters get a four-digit unicode escape, everything
else is kept. -/
def escChar (c : Char) : List Char :=
  if c = '"' then ['\\', '"']
  else if c = '\\' then ['\\', '\\']
  else if c = '\n' then ['\\', 'n']
  else if c = '\r' then ['\\', 'r']
  else if c = '\t' then ['\\', 't']
  else if c.toNat = 8 then ['\\', 'b']
  else if c.toNat = 12 then ['\\', 'f']
  else if c.toNat < 32 then
    ['\\', 'u', '0', '0', hexDigitLower (c.toNat / 16), hexDigitLower (c.toNat % 16)]
  else [c]

/-- JSON escaping of a string's contents (without the surrounding quotes). -/
def pyEscape (s : String) : String := ⟨s.data.flatMap escChar⟩

/-- Indentation of depth `d` at `indent=4`. -/
def indentStr (d : Nat) : String := ⟨List.replicate (4 * d) ' '⟩

mutual

/-- Python `json.dump(v, f, indent=4, ensure_ascii=False)` at nesting depth
`d`: objects and arrays put every item on its own indented line, the item
separator is a comma and the key separator is a colon-space. -/
def dumps : Json → Nat → String
  | .str s, _ => "\"" ++ pyEscape s ++ "\""
  | .num n, _ => toString n
  | .arr [], _ => "[]"
  | .arr (x :: xs), d => "[\n" ++ dumpItems (x :: xs) (d + 1) ++ "\n" ++ indentStr d ++ "]"
  | .obj [], _ => "\x7b\x7d"
  | .obj (kv :: kvs), d =>
    "\x7b\n" ++ dumpEntries (kv :: kvs) (d + 1) ++ "\n" ++ indentStr d ++ "\x7d"

/-- Array items of a `json.dump` at depth `d`, comma-newline separated. -/
def dumpItems : List Json → Nat → String
  | [], _ => ""
  | [x], d => indentStr d ++ dumps x d
  | x :: y :: xs, d => indentStr d ++ dumps x d ++ ",\n" ++ dumpItems (y :: xs) d

/-- Object entries of a `json.dump` at depth `d`, comma-newline separated. -/
def dumpEntries : List (String × Json) → Nat → String
  | [], _ => ""
  | [(k, v)], d => indentStr d ++ "\"" ++ pyEscape k ++ "\": " ++ dumps v d
  | (k, v) :: e :: es, d =>
    indentStr d ++ "\"" ++ pyEscape k ++ "\": " ++ dumps v d ++ ",\n" ++
      dumpEntries (e :: es) d

end

/-- The report object `Reporter.generate_report` builds: timestamp, target
URL, vulnerability count and the serialized finding list, in that key
order. The findings are passed as already-serialized JSON objects, since the
JSON writer treats them opaquely. -/
def reportJson (ts targetUrl : String) (vulns : List Json) : Json :=
  .obj [("scan_timestamp", .str ts),
        ("target_url", .str targetUrl),
        ("total_vulnerabilities", .num vulns.length),
        ("vulnerabilities", .arr vulns)]

/-- `Reporter._generate_json_report`: the bytes written to the report file. -/
def generateJsonReport (ts targetUrl : String) (vulns : List Json) : String :=
  dumps (reportJson ts targetUrl vulns) 0

/-- The bytes of a JSON report that precede the timestamp value; a fixed
string (it evaluates to an opening brace, a newline and the indented, quoted
`scan_timestamp` key followed by colon, space and an opening quote). -/
def jsonReportPre : String :=
  "\x7b\n" ++ indentStr 1 ++ "\"" ++ pyEscape "scan_timestamp" ++ "\": " ++ "\""

/-- The bytes of a JSON report that follow the timestamp value; they depend
only on the target URL and the finding list. -/
def jsonReportPost (targetUrl : String) (vulns : List Json) : String :=
  "\"" ++ ",\n" ++
    dumpEntries [("target_url", .str targetUrl),
                 ("total_vulnerabilities", .num vulns.length),
                 ("vulnerabilities", .arr vulns)] 1 ++
    "\n" ++ indentStr 0 ++ "\x7d"

/-- Predicate picking out error-based SQLi findings for payload `P` and
parameter `Q`. -/
def errPred (P Q : String) : Vuln → Bool :=
  fun v => v.type == "SQL Injection (Error-Based)" && v.payload == some P &&
    v.parameter == some Q

/-! ## Helper lemmas shared by the claim proofs -/

theorem foldl_pair {α β γ : Type _} (g : α → List β × List γ) :
    ∀ (l : List α) (st : List β × List γ),
      l.foldl (fun st a => (st.1 ++ (g a).1, st.2 ++ (g a).2)) st =
        (st.1 ++ l.flatMap (fun a => (g a).1), st.2 ++ l.flatMap (fun a => (g a).2))
  | [], st => by simp
  | a :: t, st => by
    simp only [List.foldl_cons, List.flatMap_cons]
    rw [foldl_pair g t]
    simp [List.append_assoc]

theorem foldl2_pair {α β γ δ : Type _} (g : α → β → List γ × List δ) :
    ∀ (outer : List α) (inner : List β) (st : List γ × List δ),
      outer.foldl (fun st a =>
          inner.foldl (fun st b => (st.1 ++ (g a b).1, st.2 ++ (g a b).2)) st) st =
        (st.1 ++ outer.flatMap (fun a => inner.flatMap fun b => (g a b).1),
         st.2 ++ outer.flatMap (fun a => inner.flatMap fun b => (g a b).2))
  | [], _, st => by simp
  | a :: t, inner, st => by
    simp only [List.foldl_cons, List.flatMap_cons]
    rw [foldl_pair (g a) inner st, foldl2_pair g t inner _]
    simp [List.append_assoc]

/-- Closed form of `XSSScanner.scan`: gate on the resolved parameters, then
one trial per payload-parameter combination, payload-major. -/
theorem xssScanMethod_eq (v0 : List Vuln) (http : Http) (url : String) (p? : Option Params) :
    xssScanMethod v0 http url p? =
      (if (resolveParams url p?).isEmpty then (([] : List Vuln), ([] : List Request)) else
        (Config.XSS_PAYLOADS.flatMap (fun payload => (resolveParams url p?).flatMap
           (fun kv => (xssTrial http (getBaseUrl url) (resolveParams url p?) payload kv.1).1)),
         Config.XSS_PAYLOADS.flatMap (fun payload => (resolveParams url p?).flatMap
           (fun kv => (xssTrial http (getBaseUrl url) (resolveParams url p?) payload kv.1).2)))) := by
  unfold xssScanMethod
  by_cases h : (resolveParams url p?).isEmpty
  · simp [h]
  · simp only [h, if_false]
    simpa using foldl2_pair
      (fun payload kv => xssTrial http (getBaseUrl url) (resolveParams url p?) payload kv.1)
      Config.XSS_PAYLOADS (resolveParams url p?) ([], [])

/-- Closed form of `SQLiScanner.scan`: gate on the resolved parameters, then
one trial per payload-parameter combination, payload-major. -/
theorem sqliScanMethod_eq (v0 : List Vuln) (http : Http) (url : String) (p? : Option Params) :
    sqliScanMethod v0 http url p? =
      (if (resolveParams url p?).isEmpty then (([] : List Vuln), ([] : List Request)) else
        (Config.SQLI_PAYLOADS.flatMap (fun payload => (resolveParams url p?).flatMap
           (fun kv => (sqliTrial http (getBaseUrl url) (resolveParams url p?) payload kv.1).1)),
         Config.SQLI_PAYLOADS.flatMap (fun payload => (resolveParams url p?).flatMap
           (fun kv => (sqliTrial http (getBaseUrl url) (resolveParams url p?) payload kv.1).2)))) := by
  unfold sqliScanMethod
  by_cases h : (resolveParams url p?).isEmpty
  · simp [h]
  · simp only [h, if_false]
    simpa using foldl2_pair
      (fun payload kv => sqliTrial http (getBaseUrl url) (resolveParams url p?) payload kv.1)
      Config.SQLI_PAYLOADS (resolveParams url p?) ([], [])

/-- Closed form of `RedirectScanner.scan`: one trial per fixed redirect
parameter name. -/
theorem redirectScanMethod_eq (v0 : List Vuln) (http : Http) (url : String)
    (p? : Option Params) :
    redirectScanMethod v0 http url p? =
      (Config.REDIRECT_PARAMS.flatMap (fun param => (redirectTrial http url param).1),
       Config.REDIRECT_PARAMS.flatMap (fun param => (redirectTrial http url param).2)) := by
  unfold redirectScanMethod
  simpa using foldl_pair (fun param => redirectTrial http url param)
    Config.REDIRECT_PARAMS ([], [])

/-- A query string whose fields all lack a value produces no parsed
parameters. -/
theorem parseQsl_eq_nil (qs : String)
    (h : ∀ f ∈ splitChar '&' qs.data, (breakAt '=' f).all (fun p => p.2.isEmpty) = true) :
    parseQsl qs = [] := by
  unfold parseQsl
  rw [List.filterMap_eq_nil_iff]
  intro f hf
  unfold parseField
  by_cases hfe : f = []
  · simp [hfe]
  · simp only [hfe, if_false]
    cases hb : breakAt '=' f with
    | none => rfl
    | some p =>
      have hv := h f hf
      rw [hb] at hv
      simp only [Option.all, List.isEmpty_iff] at hv
      simp [hv]

/-- The keys produced by `dedupKeys` are distinct and avoid `seen`. -/
theorem dedupKeys_nodup (l : List (String × String)) :
    ∀ seen : List String, ((dedupKeys seen l).map Prod.fst).Nodup ∧
      ∀ k ∈ (dedupKeys seen l).map Prod.fst, k ∉ seen := by
  induction l with
  | nil => intro seen; simp [dedupKeys]
  | cons kv rest ih =>
    intro seen
    by_cases h : kv.1 ∈ seen
    · simpa [dedupKeys, h] using ih seen
    · have hrec := ih (seen ++ [kv.1])
      refine ⟨?_, ?_⟩
      · simp only [dedupKeys, h, if_false, List.map_cons, List.nodup_cons]
        exact ⟨fun hmem => by
            have := hrec.2 kv.1 hmem
            simp at this, hrec.1⟩
      · intro k hk
        simp only [dedupKeys, h, if_false, List.map_cons, List.mem_cons] at hk
        rcases hk with hk | hk
        · simpa [hk] using h
        · have := hrec.2 k hk
          intro hks
          exact this (by simp [hks])

/-- The parameters extracted from a URL always have distinct keys (a Python
dict cannot hold a repeated key). -/
theorem extractParams_keys_nodup (url : String) :
    ((extractParams url).map Prod.fst).Nodup :=
  (dedupKeys_nodup (parseQsl (urlQuery url)) []).1

theorem countP_flatMap_zero {α β : Type _} (p : β → Bool) (f : α → List β) :
    ∀ l : List α, (∀ a ∈ l, (f a).countP p = 0) → ((l.flatMap f).countP p = 0)
  | [], _ => by simp
  | a :: t, h => by
    simp only [List.flatMap_cons, List.countP_append]
    rw [h a (by simp), countP_flatMap_zero p f t (fun b hb => h b (by simp [hb]))]

/-- If at most one element of `l` carries the key `K`, only elements with key
`K` can contribute matches, and each element contributes at most one match,
then the flattened list has at most one match. -/
theorem countP_flatMap_le_one_key {α β : Type _} (p : β → Bool) (f : α → List β)
    (key : α → String) (K : String) :
    ∀ l : List α, (l.map key).Nodup →
      (∀ a ∈ l, key a ≠ K → (f a).countP p = 0) →
      (∀ a ∈ l, (f a).countP p ≤ 1) →
      (l.flatMap f).countP p ≤ 1
  | [], _, _, _ => by simp
  | a :: t, hnd, hz, h1 => by
    simp only [List.flatMap_cons, List.countP_append]
    simp only [List.map_cons, List.nodup_cons] at hnd
    by_cases hka : key a = K
    · have ht : (t.flatMap f).countP p = 0 := by
        refine countP_flatMap_zero p f t (fun b hb => hz b (by simp [hb]) ?_)
        intro hbk
        exact hnd.1 (hka ▸ hbk ▸ List.mem_map_of_mem key hb)
      rw [ht]
      simpa using h1 a (by simp)
    · rw [hz a (by simp) hka]
      simpa using countP_flatMap_le_one_key p f key K t hnd.2
        (fun b hb => hz b (by simp [hb])) (fun b hb => h1 b (by simp [hb]))

theorem sqliTrial_boolean (http : Http) (base : String) (params : Params)
    (payload param : String) (v : Vuln)
    (hv : v ∈ (sqliTrial http base params payload param).1)
    (ht : v.type = "SQL Injection (Boolean-Based)") :
    ∃ r r0, http (sqliProbeReq base params payload param) = some r ∧
      http (sqliBaselineReq base params param) = some r0 ∧
      lenDiff r.body r0.body > Config.RESPONSE_LENGTH_THRESHOLD ∧
      v.description = some ("Significant response length change (" ++
        toString (lenDiff r.body r0.body) ++ " bytes)") := by
  unfold sqliTrial at hv
  cases hpr : http (sqliProbeReq base params payload param) with
  | none => simp [hpr] at hv
  | some r =>
    simp only [hpr] at hv
    cases hbr : http (sqliBaselineReq base params param) with
    | none =>
      simp only [hbr] at hv
      cases hf : Config.SQL_ERROR_PATTERNS.find? (fun pat => containsSub pat.data r.body.data) with
      | none => simp [hf] at hv
      | some pat =>
        simp only [hf, List.mem_singleton] at hv
        rw [hv] at ht
        simp at ht
    | some r0 =>
      simp only [hbr] at hv
      by_cases hd : lenDiff r.body r0.body > Config.RESPONSE_LENGTH_THRESHOLD
      · simp only [hd, if_true, List.mem_append, List.mem_singleton] at hv
        rcases hv with hv | hv
        · cases hf : Config.SQL_ERROR_PATTERNS.find?
              (fun pat => containsSub pat.data r.body.data) with
          | none => simp [hf] at hv
          | some pat =>
            simp only [hf, List.mem_singleton] at hv
            rw [hv] at ht
            simp at ht
        · exact ⟨r, r0, rfl, rfl, hd, by rw [hv]⟩
      · simp only [hd, if_false] at hv
        cases hf : Config.SQL_ERROR_PATTERNS.find?
            (fun pat => containsSub pat.data r.body.data) with
        | none => simp [hf] at hv
        | some pat =>
          simp only [hf, List.mem_singleton] at hv
          rw [hv] at ht
          simp at ht

theorem sqliTrial_requests (http : Http) (base : String) (params : Params)
    (payload param : String) :
    (sqliTrial http base params payload param).2 =
        [sqliProbeReq base params payload param] ∧
      http (sqliProbeReq base params payload param) = none ∨
    (sqliTrial http base params payload param).2 =
      [sqliProbeReq base params payload param, sqliBaselineReq base params param] := by
  unfold sqliTrial
  cases hpr : http (sqliProbeReq base params payload param) with
  | none => simp [hpr]
  | some r =>
    right
    simp only [hpr]
    cases hbr : http (sqliBaselineReq base params param) with
    | none => simp [hbr]
    | some r0 =>
      by_cases hd : lenDiff r.body r0.body > Config.RESPONSE_LENGTH_THRESHOLD
      · simp [hbr, hd]
      · simp [hbr, hd]

theorem sqliTrial_err_le_one (http : Http) (base : String) (params : Params)
    (payload param P Q : String) :
    ((sqliTrial http base params payload param).1.countP (errPred P Q)) ≤ 1 := by
  unfold sqliTrial
  cases hpr : http (sqliProbeReq base params payload param) with
  | none => simp [hpr]
  | some r =>
    simp only [hpr]
    have hb : errPred P Q
        { type := "SQL Injection (Boolean-Based)", payload := some payload,
          parameter := some param, url := r.url, status_code := r.status_code,
          description := some ("Significant response length change (" ++
            toString (lenDiff r.body (((http (sqliBaselineReq base params param)).getD
              r).body)) ++ " bytes)") } = false := by
      simp [errPred]
    cases hf : Config.SQL_ERROR_PATTERNS.find?
        (fun pat => containsSub pat.data r.body.data) with
    | none =>
      cases hbr : http (sqliBaselineReq base params param) with
      | none => simp [hf]
      | some r0 =>
        by_cases hd : lenDiff r.body r0.body > Config.RESPONSE_LENGTH_THRESHOLD
        · simp [hf, hbr, hd, errPred]
        · simp [hf, hbr, hd]
    | some pat =>
      cases hbr : http (sqliBaselineReq base params param) with
      | none => simp [hf, List.countP_cons]; split <;> simp
      | some r0 =>
        by_cases hd : lenDiff r.body r0.body > Config.RESPONSE_LENGTH_THRESHOLD
        · simp [hf, hbr, hd, List.countP_append, List.countP_cons, errPred]
          split <;> simp
        · simp [hf, hbr, hd, List.countP_cons]
          split <;> simp

theorem sqliTrial_err_zero (http : Http) (base : String) (params : Params)
    (payload param P Q : String) (h : ¬(payload = P ∧ param = Q)) :
    ((sqliTrial http base params payload param).1.countP (errPred P Q)) = 0 := by
  unfold sqliTrial
  cases hpr : http (sqliProbeReq base params payload param) with
  | none => simp [hpr]
  | some r =>
    simp only [hpr]
    have hepred : ∀ u : String, ∀ n : Nat, ∀ d : Option String, errPred P Q
        { type := "SQL Injection (Error-Based)", payload := some payload,
          parameter := some param, url := u, status_code := n,
          description := d } = false := by
      intro u n d
      simp only [errPred, Bool.and_eq_false_iff]
      by_cases h1 : payload = P
      · by_cases h2 : param = Q
        · exact absurd ⟨h1, h2⟩ h
        · right; simpa using h2
      · left; right; simpa using h1
    have hbpred : ∀ u : String, ∀ n : Nat, ∀ d : Option String, errPred P Q
        { type := "SQL Injection (Boolean-Based)", payload := some payload,
          parameter := some param, url := u, status_code := n,
          description := d } = false := by
      intro u n d; simp [errPred]
    cases hf : Config.SQL_ERROR_PATTERNS.find?
        (fun pat => containsSub pat.data r.body.data) with
    | none =>
      cases hbr : http (sqliBaselineReq base params param) with
      | none => simp [hf]
      | some r0 =>
        by_cases hd : lenDiff r.body r0.body > Config.RESPONSE_LENGTH_THRESHOLD
        · simp [hf, hbr, hd, List.countP_cons, hbpred]
        · simp [hf, hbr, hd]
    | some pat =>
      cases hbr : http (sqliBaselineReq base params param) with
      | none => simp [hf, List.countP_cons, hepred]
      | some r0 =>
        by_cases hd : lenDiff r.body r0.body > Config.RESPONSE_LENGTH_THRESHOLD
        · simp [hf, hbr, hd, List.countP_append, List.countP_cons, hepred, hbpred]
        · simp [hf, hbr, hd, List.countP_cons, hepred]

theorem redirectTrial_mem (http : Http) (url param : String) (v : Vuln)
    (hv : v ∈ (redirectTrial http url param).1) :
    ∃ r, http (redirectReq url param) = some r ∧
      urlNetloc r.url = urlNetloc Config.MALICIOUS_REDIRECT_TARGET ∧
      v.parameter = some param ∧ v.redirected_to = some r.url ∧
      v.type = "Open Redirect" := by
  unfold redirectTrial at hv
  cases hr : http (redirectReq url param) with
  | none => simp [hr] at hv
  | some r =>
    simp only [hr] at hv
    by_cases hn : urlNetloc r.url = urlNetloc Config.MALICIOUS_REDIRECT_TARGET
    · simp only [hn, if_true, List.mem_singleton] at hv
      exact ⟨r, rfl, hn, by rw [hv], by rw [hv], by rw [hv]⟩
    · simp [hn] at hv

theorem redirectTrial_nil (http : Http) (url param : String) (r : Response)
    (hr : http (redirectReq url param) = some r)
    (hn : urlNetloc r.url ≠ urlNetloc Config.MALICIOUS_REDIRECT_TARGET) :
    (redirectTrial http url param).1 = [] := by
  unfold redirectTrial
  simp [hr, hn]

theorem sqliTrial_error_mem (http : Http) (base : String) (params : Params)
    (payload param : String) (v : Vuln)
    (hv : v ∈ (sqliTrial http base params payload param).1)
    (ht : v.type = "SQL Injection (Error-Based)") :
    ∃ r pat, http (sqliProbeReq base params payload param) = some r ∧
      Config.SQL_ERROR_PATTERNS.find? (fun pat => containsSub pat.data r.body.data) =
        some pat ∧
      v.description = some ("SQL error detected: " ++ pat) ∧
      v.payload = some payload ∧ v.parameter = some param := by
  unfold sqliTrial at hv
  cases hpr : http (sqliProbeReq base params payload param) with
  | none => simp [hpr] at hv
  | some r =>
    simp only [hpr] at hv
    refine ⟨r, ?_⟩
    cases hf : Config.SQL_ERROR_PATTERNS.find?
        (fun pat => containsSub pat.data r.body.data) with
    | none =>
      exfalso
      simp only [hf] at hv
      cases hbr : http (sqliBaselineReq base params param) with
      | none => simp [hbr] at hv
      | some r0 =>
        simp only [hbr] at hv
        by_cases hd : lenDiff r.body r0.body > Config.RESPONSE_LENGTH_THRESHOLD
        · simp only [hd, if_true, List.nil_append, List.mem_singleton] at hv
          rw [hv] at ht
          simp at ht
        · simp [hd] at hv
    | some pat =>
      simp only [hf] at hv
      refine ⟨pat, rfl, ?_⟩
      cases hbr : http (sqliBaselineReq base params param) with
      | none =>
        simp only [hbr, List.mem_singleton] at hv
        simp [hv]
      | some r0 =>
        simp only [hbr] at hv
        by_cases hd : lenDiff r.body r0.body > Config.RESPONSE_LENGTH_THRESHOLD
        · simp only [hd, if_true, List.mem_append, List.mem_singleton] at hv
          rcases hv with hv | hv
          · simp [hv]
          · rw [hv] at ht; simp at ht
        · simp only [hd, if_false, List.mem_singleton] at hv
          simp [hv]


/-! ## Demo HTTP oracles used by witnesses and the counterexample -/

/-- Oracle that fails every request (transport error everywhere). -/
def failHttp : Http := fun _ => none

/-- Oracle that answers every request with an empty 200 response whose final
URL is the fixed address of the probed host. -/
def okHttp : Http := fun _ =>
  some { status_code := 200, headers := [], url := "http://t", body := "" }

/-! ## Claim theorems -/

/-- Claim C2: for every target URL with an empty query string and no explicit
params argument, the XSS and SQLi scans return an empty finding list and
issue no HTTP request. -/
theorem claim_C2_no_params_no_requests (http : Http) (url : String)
    (h : urlQuery url = "") :
    xssScan http url none = ([], []) ∧ sqliScan http url none = ([], []) := by
  have hp : resolveParams url none = [] := by
    unfold resolveParams extractParams
    rw [h]
    decide
  constructor
  · unfold xssScan
    rw [xssScanMethod_eq]
    simp [hp]
  · unfold sqliScan
    rw [sqliScanMethod_eq]
    simp [hp]

/-- Witness for C2 at the concrete query-less URL of the spec scenario. -/
theorem claim_C2_witness :
    urlQuery "http://example.com" = "" ∧
    xssScan okHttp "http://example.com" none = ([], []) ∧
    sqliScan okHttp "http://example.com" none = ([], []) :=
  ⟨by decide, claim_C2_no_params_no_requests okHttp "http://example.com" (by decide)⟩

/-- Claim C7: every scan call resets the accumulator, so the result is
independent of the instance's previous finding list, and the returned pair is
exactly the gate-plus-per-trial characterisation of the current invocation. -/
theorem claim_C7_reset_no_cross_call_leakage (v0 : List Vuln) (http : Http)
    (url : String) (p? : Option Params) :
    xssScanMethod v0 http url p? = xssScanMethod [] http url p? ∧
    sqliScanMethod v0 http url p? = sqliScanMethod [] http url p? ∧
    httpScanMethod v0 http url p? = httpScanMethod [] http url p? ∧
    redirectScanMethod v0 http url p? = redirectScanMethod [] http url p? ∧
    xssScanMethod v0 http url p? =
      (if (resolveParams url p?).isEmpty then (([] : List Vuln), ([] : List Request)) else
        (Config.XSS_PAYLOADS.flatMap (fun payload => (resolveParams url p?).flatMap
           (fun kv => (xssTrial http (getBaseUrl url) (resolveParams url p?) payload kv.1).1)),
         Config.XSS_PAYLOADS.flatMap (fun payload => (resolveParams url p?).flatMap
           (fun kv => (xssTrial http (getBaseUrl url) (resolveParams url p?) payload kv.1).2)))) ∧
    sqliScanMethod v0 http url p? =
      (if (resolveParams url p?).isEmpty then (([] : List Vuln), ([] : List Request)) else
        (Config.SQLI_PAYLOADS.flatMap (fun payload => (resolveParams url p?).flatMap
           (fun kv => (sqliTrial http (getBaseUrl url) (resolveParams url p?) payload kv.1).1)),
         Config.SQLI_PAYLOADS.flatMap (fun payload => (resolveParams url p?).flatMap
           (fun kv => (sqliTrial http (getBaseUrl url) (resolveParams url p?) payload kv.1).2)))) ∧
    redirectScanMethod v0 http url p? =
      (Config.REDIRECT_PARAMS.flatMap (fun param => (redirectTrial http url param).1),
       Config.REDIRECT_PARAMS.flatMap (fun param => (redirectTrial http url param).2)) :=
  ⟨rfl, rfl, rfl, rfl, xssScanMethod_eq v0 http url p?, sqliScanMethod_eq v0 http url p?,
    redirectScanMethod_eq v0 http url p?⟩

/-- The JSON report splits as fixed bytes, the escaped timestamp, and bytes
depending only on the target URL and finding list. -/
theorem generateJsonReport_split (ts targetUrl : String) (vulns : List Json) :
    generateJsonReport ts targetUrl vulns =
      jsonReportPre ++ pyEscape ts ++ jsonReportPost targetUrl vulns := by
  unfold generateJsonReport reportJson jsonReportPre jsonReportPost
  rw [dumps, dumpEntries]
  simp only [dumps, Nat.zero_add, String.append_assoc]

/-- Claim C8: two JSON reports over the same finding list and target URL are
byte-identical except for the timestamp value: both are the same fixed prefix
(ending in the quote that opens the `scan_timestamp` value), then the escaped
timestamp, then a suffix depending only on target and findings. -/
theorem claim_C8_json_report_idempotent (ts1 ts2 targetUrl : String) (vulns : List Json) :
    generateJsonReport ts1 targetUrl vulns =
      jsonReportPre ++ pyEscape ts1 ++ jsonReportPost targetUrl vulns ∧
    generateJsonReport ts2 targetUrl vulns =
      jsonReportPre ++ pyEscape ts2 ++ jsonReportPost targetUrl vulns ∧
    jsonReportPre = "\x7b\n    \"scan_timestamp\": \"" :=
  ⟨generateJsonReport_split ts1 targetUrl vulns,
   generateJsonReport_split ts2 targetUrl vulns, by decide⟩

/-- Claim C10: in every SQLi boolean-based trial the payload request disables
redirect following while the baseline request follows redirects, and the
trial's request trace is exactly the probe alone (when it fails) or the probe
followed by the baseline. -/
theorem claim_C10_redirect_policy_mismatch (http : Http) (base : String)
    (params : Params) (payload param : String) :
    (sqliProbeReq base params payload param).allowRedirects = false ∧
    (sqliBaselineReq base params param).allowRedirects = true ∧
    ((sqliTrial http base params payload param).2 =
        [sqliProbeReq base params payload param] ∨
      (sqliTrial http base params payload param).2 =
        [sqliProbeReq base params payload param, sqliBaselineReq base params param]) := by
  refine ⟨rfl, rfl, ?_⟩
  rcases sqliTrial_requests http base params payload param with ⟨h, _⟩ | h
  · exact Or.inl h
  · exact Or.inr h

/-- Claim C3: every boolean-based SQLi finding reports a byte delta that is
strictly greater than the 50-byte threshold and equals the absolute
difference between the payload response's body length and the baseline
response's body length. -/
theorem claim_C3_boolean_delta (v0 : List Vuln) (http : Http) (url : String)
    (p? : Option Params) (v : Vuln)
    (hv : v ∈ (sqliScanMethod v0 http url p?).1)
    (ht : v.type = "SQL Injection (Boolean-Based)") :
    ∃ payload param r r0,
      payload ∈ Config.SQLI_PAYLOADS ∧
      http (sqliProbeReq (getBaseUrl url) (resolveParams url p?) payload param) = some r ∧
      http (sqliBaselineReq (getBaseUrl url) (resolveParams url p?) param) = some r0 ∧
      lenDiff r.body r0.body > Config.RESPONSE_LENGTH_THRESHOLD ∧
      v.description = some ("Significant response length change (" ++
        toString (lenDiff r.body r0.body) ++ " bytes)") := by
  rw [sqliScanMethod_eq] at hv
  by_cases hemp : (resolveParams url p?).isEmpty
  · rw [if_pos hemp] at hv
    simp at hv
  · rw [if_neg hemp] at hv
    have hv1 : v ∈ Config.SQLI_PAYLOADS.flatMap (fun payload =>
        (resolveParams url p?).flatMap
          (fun kv => (sqliTrial http (getBaseUrl url)
            (resolveParams url p?) payload kv.1).1)) := hv
    obtain ⟨payload, hpl, hv2⟩ := List.mem_flatMap.mp hv1
    obtain ⟨kv, hkv, hv3⟩ := List.mem_flatMap.mp hv2
    obtain ⟨r, r0, h1, h2, h3, h4⟩ :=
      sqliTrial_boolean http (getBaseUrl url) (resolveParams url p?) payload kv.1 v hv3 ht
    exact ⟨payload, kv.1, r, r0, hpl, h1, h2, h3, h4⟩

/-- Oracle for the C3 witness: probe responses carry a 60-character body,
baseline responses an empty one. -/
def w3Http : Http := fun rq =>
  if rq.allowRedirects then
    some { status_code := 200, headers := [], url := "http://t", body := "" }
  else
    some { status_code := 200, headers := [], url := "http://t/p",
           body := "AAAAAAAAAAAAAAAAAAAAAAAAAAAAAAAAAAAAAAAAAAAAAAAAAAAAAAAAAAAA" }

/-- The boolean-based finding the C3 witness scan produces first. -/
def w3Vuln : Vuln :=
  { type := "SQL Injection (Boolean-Based)", payload := some "\x27 OR \x271\x27=\x271",
    parameter := some "a", url := "http://t/p", status_code := 200,
    description := some "Significant response length change (60 bytes)" }

/-- Witness for C3 at a concrete oracle whose probe and baseline bodies
differ by 60 bytes. -/
theorem claim_C3_witness :
    w3Vuln ∈ (sqliScanMethod [] w3Http "http://t?a=1" none).1 ∧
    w3Vuln.type = "SQL Injection (Boolean-Based)" ∧
    (∃ payload param r r0,
      payload ∈ Config.SQLI_PAYLOADS ∧
      w3Http (sqliProbeReq (getBaseUrl "http://t?a=1")
        (resolveParams "http://t?a=1" none) payload param) = some r ∧
      w3Http (sqliBaselineReq (getBaseUrl "http://t?a=1")
        (resolveParams "http://t?a=1" none) param) = some r0 ∧
      lenDiff r.body r0.body > Config.RESPONSE_LENGTH_THRESHOLD ∧
      w3Vuln.description = some ("Significant response length change (" ++
        toString (lenDiff r.body r0.body) ++ " bytes)")) :=
  ⟨by decide, by decide,
    claim_C3_boolean_delta [] w3Http "http://t?a=1" none w3Vuln (by decide) (by decide)⟩

/-- Claim C9: when every query-string field assigns an empty value, the
extracted parameter dict is empty and the XSS and SQLi scans return no
findings and issue no requests. -/
theorem claim_C9_blank_values_dropped (http : Http) (url : String)
    (h : ∀ f ∈ splitChar '&' (urlQuery url).data,
      (breakAt '=' f).all (fun p => p.2.isEmpty) = true) :
    extractParams url = [] ∧
    xssScan http url none = ([], []) ∧ sqliScan http url none = ([], []) := by
  have hp : extractParams url = [] := by
    unfold extractParams
    rw [parseQsl_eq_nil _ h]
    rfl
  have hr : resolveParams url none = [] := by
    unfold resolveParams
    exact hp
  refine ⟨hp, ?_, ?_⟩
  · unfold xssScan
    rw [xssScanMethod_eq]
    simp [hr]
  · unfold sqliScan
    rw [sqliScanMethod_eq]
    simp [hr]

/-- Witness for C9 at the blank-valued query of the claim. -/
theorem claim_C9_witness :
    (∀ f ∈ splitChar '&' (urlQuery "http://example.com?name=&id=").data,
      (breakAt '=' f).all (fun p => p.2.isEmpty) = true) ∧
    extractParams "http://example.com?name=&id=" = [] ∧
    xssScan okHttp "http://example.com?name=&id=" none = ([], []) ∧
    sqliScan okHttp "http://example.com?name=&id=" none = ([], []) :=
  ⟨by decide, claim_C9_blank_values_dropped okHttp "http://example.com?name=&id="
    (by decide)⟩

/-- Claim C4: in a single SQLi scan at most one error-based finding exists
per (payload, parameter) pair, and every error-based finding records the
first of the eight fixed database-error signatures matching the response
body. -/
theorem claim_C4_error_based_once (v0 : List Vuln) (http : Http) (url : String)
    (p? : Option Params)
    (hnd : ((resolveParams url p?).map Prod.fst).Nodup) :
    (∀ P Q, ((sqliScanMethod v0 http url p?).1.countP (errPred P Q)) ≤ 1) ∧
    (∀ v ∈ (sqliScanMethod v0 http url p?).1,
      v.type = "SQL Injection (Error-Based)" →
      ∃ payload param r pat,
        payload ∈ Config.SQLI_PAYLOADS ∧
        http (sqliProbeReq (getBaseUrl url) (resolveParams url p?) payload param) =
          some r ∧
        Config.SQL_ERROR_PATTERNS.find? (fun pat => containsSub pat.data r.body.data) =
          some pat ∧
        v.description = some ("SQL error detected: " ++ pat) ∧
        v.payload = some payload ∧ v.parameter = some param) := by
  constructor
  · intro P Q
    rw [sqliScanMethod_eq]
    by_cases hemp : (resolveParams url p?).isEmpty
    · rw [if_pos hemp]
      simp
    · rw [if_neg hemp]
      have hmain : ((Config.SQLI_PAYLOADS.flatMap (fun payload =>
          (resolveParams url p?).flatMap
            (fun kv => (sqliTrial http (getBaseUrl url)
              (resolveParams url p?) payload kv.1).1))).countP (errPred P Q)) ≤ 1 := by
        apply countP_flatMap_le_one_key (errPred P Q) _ (fun payload => payload) P
        · simpa using (by decide : Config.SQLI_PAYLOADS.Nodup)
        · intro payload _ hne
          apply countP_flatMap_zero
          intro kv _
          exact sqliTrial_err_zero http (getBaseUrl url) (resolveParams url p?)
            payload kv.1 P Q (fun hc => hne hc.1)
        · intro payload _
          apply countP_flatMap_le_one_key (errPred P Q) _ Prod.fst Q
          · exact hnd
          · intro kv _ hne
            exact sqliTrial_err_zero http (getBaseUrl url) (resolveParams url p?)
              payload kv.1 P Q (fun hc => hne hc.2)
          · intro kv _
            exact sqliTrial_err_le_one http (getBaseUrl url) (resolveParams url p?)
              payload kv.1 P Q
      exact hmain
  · intro v hv ht
    rw [sqliScanMethod_eq] at hv
    by_cases hemp : (resolveParams url p?).isEmpty
    · rw [if_pos hemp] at hv
      simp at hv
    · rw [if_neg hemp] at hv
      have hv1 : v ∈ Config.SQLI_PAYLOADS.flatMap (fun payload =>
          (resolveParams url p?).flatMap
            (fun kv => (sqliTrial http (getBaseUrl url)
              (resolveParams url p?) payload kv.1).1)) := hv
      obtain ⟨payload, hpl, hv2⟩ := List.mem_flatMap.mp hv1
      obtain ⟨kv, hkv, hv3⟩ := List.mem_flatMap.mp hv2
      obtain ⟨r, pat, h1, h2, h3, h4, h5⟩ :=
        sqliTrial_error_mem http (getBaseUrl url) (resolveParams url p?)
          payload kv.1 v hv3 ht
      exact ⟨payload, kv.1, r, pat, hpl, h1, h2, h3, h4, h5⟩

/-- Oracle for the C4 witness: probe responses contain two of the error
signatures, baselines are empty. -/
def w4Http : Http := fun rq =>
  if rq.allowRedirects then
    some { status_code := 200, headers := [], url := "http://t", body := "" }
  else
    some { status_code := 500, headers := [], url := "http://t/p",
           body := "error in your SQL syntax near mysql_fetch" }

/-- Witness for C4 at a concrete oracle producing error-based findings. -/
theorem claim_C4_witness :
    ((resolveParams "http://t?a=1" none).map Prod.fst).Nodup ∧
    (∀ P Q, ((sqliScanMethod [] w4Http "http://t?a=1" none).1.countP (errPred P Q)) ≤ 1) ∧
    (∀ v ∈ (sqliScanMethod [] w4Http "http://t?a=1" none).1,
      v.type = "SQL Injection (Error-Based)" →
      ∃ payload param r pat,
        payload ∈ Config.SQLI_PAYLOADS ∧
        w4Http (sqliProbeReq (getBaseUrl "http://t?a=1")
          (resolveParams "http://t?a=1" none) payload param) = some r ∧
        Config.SQL_ERROR_PATTERNS.find? (fun pat => containsSub pat.data r.body.data) =
          some pat ∧
        v.description = some ("SQL error detected: " ++ pat) ∧
        v.payload = some payload ∧ v.parameter = some param) :=
  ⟨by decide, claim_C4_error_based_once [] w4Http "http://t?a=1" none (by decide)⟩

/-- Claim C5: when the initial GET fails the HTTP scanner returns no
findings; when the GET succeeds and only the OPTIONS request fails, the scan
returns exactly the missing-header findings of the GET response, all of
missing-header kind. -/
theorem claim_C5_http_error_handling (v0 : List Vuln) (http : Http) (url : String)
    (p? : Option Params) :
    (http (httpGetReq url) = none → (httpScanMethod v0 http url p?).1 = []) ∧
    (∀ r, http (httpGetReq url) = some r → http (httpOptionsReq url) = none →
      (httpScanMethod v0 http url p?).1 = missingHeaderVulns url r ∧
      ∀ v ∈ missingHeaderVulns url r, v.issue = some "Missing Security Header") := by
  constructor
  · intro h
    unfold httpScanMethod
    simp [h]
  · intro r hg ho
    constructor
    · unfold httpScanMethod
      simp [hg, ho]
    · intro v hv
      unfold missingHeaderVulns at hv
      rw [List.mem_filterMap] at hv
      obtain ⟨hd, hh, hsome⟩ := hv
      by_cases hhas : hasHeader r.headers hd
      · simp [hhas] at hsome
      · rw [if_neg hhas, Option.some_inj] at hsome
        rw [← hsome]

/-- Oracle for the C5 witness: GET succeeds without security headers,
OPTIONS fails. -/
def w5bHttp : Http := fun rq =>
  if rq.httpMethod = "GET" then
    some { status_code := 200, headers := [("Server", "nginx")], url := rq.url, body := "" }
  else none

/-- The GET response `w5bHttp` serves. -/
def w5bResp : Response :=
  { status_code := 200, headers := [("Server", "nginx")], url := "http://t", body := "" }

/-- Witness for C5: a failing GET yields no findings; a failing OPTIONS
keeps the five header findings. -/
theorem claim_C5_witness :
    ((httpScanMethod [] failHttp "http://t" none).1 = []) ∧
    ((httpScanMethod [] w5bHttp "http://t" none).1 = missingHeaderVulns "http://t" w5bResp ∧
      ∀ v ∈ missingHeaderVulns "http://t" w5bResp, v.issue = some "Missing Security Header") :=
  ⟨(claim_C5_http_error_handling [] failHttp "http://t" none).1 (by decide),
   (claim_C5_http_error_handling [] w5bHttp "http://t" none).2 w5bResp (by decide) (by decide)⟩

/-- Claim C6: every open-redirect finding comes from a response whose final
URL has exactly the network location of the fixed malicious target, and no
finding is emitted for a parameter whose response resolves elsewhere; the
malicious network location is the fixed host. -/
theorem claim_C6_redirect_netloc_match (v0 : List Vuln) (http : Http) (url : String)
    (p? : Option Params) :
    (∀ v ∈ (redirectScanMethod v0 http url p?).1, ∃ param r,
      param ∈ Config.REDIRECT_PARAMS ∧ v.parameter = some param ∧
      http (redirectReq url param) = some r ∧
      urlNetloc r.url = urlNetloc Config.MALICIOUS_REDIRECT_TARGET ∧
      v.redirected_to = some r.url ∧ v.type = "Open Redirect") ∧
    (∀ param r, http (redirectReq url param) = some r →
      urlNetloc r.url ≠ urlNetloc Config.MALICIOUS_REDIRECT_TARGET →
      ∀ v ∈ (redirectScanMethod v0 http url p?).1, v.parameter ≠ some param) ∧
    urlNetloc Config.MALICIOUS_REDIRECT_TARGET = "malicious-example.com" := by
  have hmem : ∀ v ∈ (redirectScanMethod v0 http url p?).1, ∃ param r,
      param ∈ Config.REDIRECT_PARAMS ∧ v.parameter = some param ∧
      http (redirectReq url param) = some r ∧
      urlNetloc r.url = urlNetloc Config.MALICIOUS_REDIRECT_TARGET ∧
      v.redirected_to = some r.url ∧ v.type = "Open Redirect" := by
    intro v hv
    rw [redirectScanMethod_eq] at hv
    have hv1 : v ∈ Config.REDIRECT_PARAMS.flatMap
        (fun param => (redirectTrial http url param).1) := hv
    obtain ⟨param, hpm, hv2⟩ := List.mem_flatMap.mp hv1
    obtain ⟨r, h1, h2, h3, h4, h5⟩ := redirectTrial_mem http url param v hv2
    exact ⟨param, r, hpm, h3, h1, h2, h4, h5⟩
  refine ⟨hmem, ?_, by decide⟩
  intro param r hr hne v hv hpv
  obtain ⟨param2, r2, _, hp2, hr2, hn2, _, _⟩ := hmem v hv
  rw [hpv] at hp2
  have hpeq : param2 = param := by
    injection hp2.symm
  rw [hpeq] at hr2
  rw [hr] at hr2
  have : r2 = r := by injection hr2.symm
  rw [this] at hn2
  exact hne hn2

/-- Oracle for the C6 witness: every request resolves to a page on the
malicious host. -/
def w6Http : Http := fun _ =>
  some { status_code := 200, headers := [],
         url := "https://malicious-example.com/welcome", body := "" }

/-- The first finding of the C6 witness scan. -/
def w6Vuln : Vuln :=
  { type := "Open Redirect", parameter := some "redirect",
    url := redirectTestUrl "http://t" "redirect",
    redirected_to := some "https://malicious-example.com/welcome",
    status_code := 200,
    description :=
      some "Unvalidated redirect parameter allows navigation to malicious domain" }

/-- Second C6 oracle: responses stay on the probed URL, so no redirect
happens. -/
def w6bHttp : Http := fun rq =>
  some { status_code := 200, headers := [], url := rq.url, body := "" }

/-- The response `w6bHttp` serves for the `redirect` parameter probe. -/
def w6bResp : Response :=
  { status_code := 200, headers := [],
    url := redirectTestUrl "http://t" "redirect", body := "" }

/-- Witness for C6: a redirecting host yields a finding with matching
network location; a non-redirecting host yields none for that parameter. -/
theorem claim_C6_witness :
    w6Vuln ∈ (redirectScanMethod [] w6Http "http://t" none).1 ∧
    (∃ param r, param ∈ Config.REDIRECT_PARAMS ∧ w6Vuln.parameter = some param ∧
      w6Http (redirectReq "http://t" param) = some r ∧
      urlNetloc r.url = urlNetloc Config.MALICIOUS_REDIRECT_TARGET ∧
      w6Vuln.redirected_to = some r.url ∧ w6Vuln.type = "Open Redirect") ∧
    (∀ v ∈ (redirectScanMethod [] w6bHttp "http://t" none).1,
      v.parameter ≠ some "redirect") :=
  ⟨by decide,
   (claim_C6_redirect_netloc_match [] w6Http "http://t" none).1 w6Vuln (by decide),
   (claim_C6_redirect_netloc_match [] w6bHttp "http://t" none).2.1 "redirect" w6bResp
     (by decide) (by decide)⟩

/-- The second request the C1 counterexample scan issues: the baseline for
probing parameter `a` of a two-parameter URL. -/
def c1BaselineRequest : Request :=
  { httpMethod := "GET", url := "http://t", params := [("a", "1")],
    allowRedirects := true }

/-- Claim C1 is false on the code: for the two-parameter URL, the baseline
request of the first boolean-based trial contains only the probed parameter
`a`; the other parameter `b` of the URL is extracted but absent from the
baseline request. -/
theorem claim_C1_counterexample :
    (sqliScanMethod [] okHttp "http://t?a=1&b=2" none).2.get? 1 =
      some c1BaselineRequest ∧
    ("b", "2") ∈ extractParams "http://t?a=1&b=2" ∧
    ("b", "2") ∉ c1BaselineRequest.params := by decide

/-- Claim C1 as amended: the baseline request carries only the probed
parameter at its original un-injected value (all other parameters are
dropped), and a trial's request trace is the probe alone or the probe
followed by that baseline. -/
theorem claim_C1_amended (http : Http) (base : String) (params : Params)
    (payload param v : String) (hv : dictGet params param = some v) :
    sqliBaselineReq base params param =
      { httpMethod := "GET", url := base, params := [(param, v)],
        allowRedirects := true } ∧
    ((sqliTrial http base params payload param).2 =
        [sqliProbeReq base params payload param] ∨
      (sqliTrial http base params payload param).2 =
        [sqliProbeReq base params payload param, sqliBaselineReq base params param]) := by
  constructor
  · unfold sqliBaselineReq
    rw [hv]
    rfl
  · rcases sqliTrial_requests http base params payload param with ⟨h, _⟩ | h
    · exact Or.inl h
    · exact Or.inr h

/-- Witness for the amended C1 at a concrete two-parameter dict. -/
theorem claim_C1_amended_witness :
    dictGet [("a", "1"), ("b", "2")] "a" = some "1" ∧
    (sqliBaselineReq "http://t" [("a", "1"), ("b", "2")] "a" =
      { httpMethod := "GET", url := "http://t", params := [("a", "1")],
        allowRedirects := true } ∧
    ((sqliTrial okHttp "http://t" [("a", "1"), ("b", "2")] "admin\x27--" "a").2 =
        [sqliProbeReq "http://t" [("a", "1"), ("b", "2")] "admin\x27--" "a"] ∨
      (sqliTrial okHttp "http://t" [("a", "1"), ("b", "2")] "admin\x27--" "a").2 =
        [sqliProbeReq "http://t" [("a", "1"), ("b", "2")] "admin\x27--" "a",
         sqliBaselineReq "http://t" [("a", "1"), ("b", "2")] "a"])) :=
  ⟨by decide,
   claim_C1_amended okHttp "http://t" [("a", "1"), ("b", "2")] "admin\x27--" "a" "1"
     (by decide)⟩

end VScanner
